import Mathlib

/-!
Verification of the DRM video output pipeline of `video_drm.c`
(softhddevice-openglosd).

The development shallowly embeds the parts of `video_drm.c` that the
properties below are about:

* the render context `struct _Drm_Render_` (ring cursors, atomic fill
  counters, statistics counters, lifecycle flags);
* the audio/video synchronisation step of `DrmFrame2Drm`
  (the `audioclock:` section, lines 772-820);
* the ring pushes of `VideoRenderFrame` and of the deinterlacer thread
  `VideoFilterThread` (`fillframe:` section);
* frame-ownership transfer between the ring, the committed buffer, the
  `lastframe` slot of the completion loop `DrmDisplayFrame`, and
  `av_frame_free`, as an event-step relation;
* device enumeration `Drm_find_dev` and the PRIME-import buffer pool of
  `DrmFrame2Drm`;
* the pixel-format negotiation callback `Video_get_format`;
* the statistics query `VideoGetStats`.

Machine integers that can only grow by small increments (counters,
cursors) are modelled as `Int`/`Nat`; cursor arithmetic keeps the
explicit `% 4` of the source.  Frames are identified by `Nat` handles.
-/

namespace VideoDrm

/-- Capacity of both staging rings, `#define VIDEO_SURFACES_MAX 4`. -/
def VIDEO_SURFACES_MAX : Nat := 4

/-- FFmpeg's `AV_NOPTS_VALUE` (`INT64_MIN`), returned by `AudioGetClock`
when no audio clock is available. -/
def AV_NOPTS_VALUE : Int := -(2 ^ 63)

/-- The C conversion of an `int64_t` value to a 32-bit `int`: the
representative of `x` modulo `2^32` in `[-2^31, 2^31)` (two's-complement
wrap-around, which is how gcc defines the implementation-defined
out-of-range conversion). -/
def toInt32 (x : Int) : Int := (x + 2 ^ 31) % 2 ^ 32 - 2 ^ 31

/-- The fields of `struct _Drm_Render_` that the ring, synchronisation and
statistics logic reads and writes.  Ring slots hold optional frame handles
(`AVFrame *`, NULL-initialised by `calloc` in `VideoNewRender`). -/
structure DrmRender where
  /-- `AVFrame *SurfacesRb[VIDEO_SURFACES_MAX]` — ring 2, input of the
  presentation loop.  Kept as a 4-element list. -/
  SurfacesRb : List (Option Nat)
  /-- `int FramesDeintWrite` — ring 2 write cursor. -/
  FramesDeintWrite : Nat
  /-- `int FramesDeintRead` — ring 2 read cursor. -/
  FramesDeintRead : Nat
  /-- `atomic_t FramesDeintFilled` — ring 2 occupancy. -/
  FramesDeintFilled : Int
  /-- `AVFrame *FramesRb[VIDEO_SURFACES_MAX]` — ring 1, input of the
  deinterlacer thread. -/
  FramesRb : List (Option Nat)
  /-- `int FramesWrite` — ring 1 write cursor. -/
  FramesWrite : Nat
  /-- `int FramesRead` — ring 1 read cursor. -/
  FramesRead : Nat
  /-- `atomic_t FramesFilled` — ring 1 occupancy. -/
  FramesFilled : Int
  /-- `int TrickSpeed` — current trick speed, `0` = normal play. -/
  TrickSpeed : Int
  /-- `int Closing` — stream-closing flag (`0`/`1` in the source). -/
  Closing : Bool
  /-- `int FilterInit` — deinterlace filter graph initialised. -/
  FilterInit : Bool
  /-- `int second_field` — CPU-path interlacing phase (`0`/`1`). -/
  second_field : Int
  /-- `int StartCounter` — counter for video start. -/
  StartCounter : Int
  /-- `int FramesDuped` — number of frames duplicated. -/
  FramesDuped : Int
  /-- `int FramesDropped` — number of frames dropped. -/
  FramesDropped : Int
deriving Repr, DecidableEq

/-- The state `VideoNewRender` creates: `calloc` zeroes every field and
`atomic_set(&render->FramesDeintFilled, 0)` re-asserts the occupancy. -/
def VideoNewRender : DrmRender where
  SurfacesRb := [none, none, none, none]
  FramesDeintWrite := 0
  FramesDeintRead := 0
  FramesDeintFilled := 0
  FramesRb := [none, none, none, none]
  FramesWrite := 0
  FramesRead := 0
  FramesFilled := 0
  TrickSpeed := 0
  Closing := false
  FilterInit := false
  second_field := 0
  StartCounter := 0
  FramesDuped := 0
  FramesDropped := 0

/-- Where one pass of the `audioclock:` section of `DrmFrame2Drm`
transfers control.  Only `pageFlip` reaches the `page_flip:` label, i.e.
only `pageFlip` issues an atomic commit (`DRM_MODE_PAGE_FLIP_EVENT`). -/
inductive SyncResult where
  /-- `usleep(20000); goto audioclock;` — the audio clock is re-polled and
  the frame stays at the head of ring 2; no commit is issued. -/
  | repollClock : SyncResult
  /-- `goto closing;` — the closing path (black framebuffer / cleanup). -/
  | toClosing : SyncResult
  /-- `goto dequeue;` — the head frame was freed (`av_frame_free`) and the
  loop returns to dequeuing; no commit is issued. -/
  | toDequeue : SyncResult
  /-- Fall-through to `page_flip:` — a commit is issued for this frame.
  `consumed` records whether the ring read cursor advanced (false only for
  the first field of an interlaced CPU-path frame, line 817). -/
  | pageFlip (consumed : Bool) : SyncResult
deriving Repr, DecidableEq

/-- One pass of `DrmFrame2Drm` from the `audioclock:` label (line 772) to
the next control transfer, for the frame at the head of ring 2 with
timestamp `pts` and interlace flag `interlaced`.  `audio_clock` is the
value `AudioGetClock()` returned on this pass and `delay` is the global
`VideoAudioDelay`. -/
def syncCycle (r : DrmRender) (pts audio_clock delay : Int)
    (interlaced : Bool) : DrmRender × SyncResult :=
  -- line 774: `if (audio_clock == AV_NOPTS_VALUE && !render->TrickSpeed)`
  if audio_clock = AV_NOPTS_VALUE ∧ r.TrickSpeed = 0 then
    if r.Closing then (r, .toClosing) else (r, .repollClock)
  else
    -- line 782: `int diff = frame->pts - audio_clock - VideoAudioDelay;`
    -- the int64 difference is truncated by the assignment to a 32-bit int
    let diff := toInt32 (pts - audio_clock - delay)
    -- line 784: `if (diff > 55 * 90 && !render->TrickSpeed)`
    if diff > 55 * 90 ∧ r.TrickSpeed = 0 then
      let r := { r with FramesDuped := r.FramesDuped + 1 }
      if r.Closing then (r, .toClosing) else (r, .repollClock)
    -- line 794: `if (diff < -25 * 90 && !render->TrickSpeed)`
    else if diff < -25 * 90 ∧ r.TrickSpeed = 0 then
      let r := { r with FramesDropped := r.FramesDropped + 1 }
      if r.Closing then (r, .toClosing)
      else
        -- lines 800-808: free the frame, advance the read cursor,
        -- decrement the occupancy; `Closing == 0` here, so the
        -- start counter advances too.
        let r := { r with
          FramesDeintRead := (r.FramesDeintRead + 1) % VIDEO_SURFACES_MAX
          FramesDeintFilled := r.FramesDeintFilled - 1
          StartCounter := r.StartCounter + 1 }
        (r, .toDequeue)
    else
      -- line 811: `if (frame->interlaced_frame == 0 || render->second_field == 0)`
      if interlaced = false ∨ r.second_field = 0 then
        let r := { r with
          FramesDeintRead := (r.FramesDeintRead + 1) % VIDEO_SURFACES_MAX
          FramesDeintFilled := r.FramesDeintFilled - 1
          StartCounter := r.StartCounter + 1 }
        (r, .pageFlip true)
      else
        ({ r with StartCounter := r.StartCounter + 1 }, .pageFlip false)

/-- The ingest entry point `VideoRenderFrame` (lines 1246-1274).  Returns
the new render state and whether the incoming frame was freed immediately
(`av_frame_free` on the `Closing` early return).  `interlaced` is
`frame->interlaced_frame`, `swdeint` the global `SWDeinterlacer`.  The
`pthread_create`/`VideoFilterInit` side effects of the first interlaced
frame are modelled by their state writes (`FilterInit = 1`,
`atomic_set(&render->FramesFilled, 0)`). -/
def VideoRenderFrame (r : DrmRender) (frame : Nat)
    (interlaced swdeint : Bool) : DrmRender × Bool :=
  if r.Closing then
    (r, true)
  else if interlaced ∧ swdeint then
    let r := if ¬r.FilterInit
      then { r with FilterInit := true, FramesFilled := 0 }
      else r
    ({ r with
        FramesRb := r.FramesRb.set r.FramesWrite (some frame)
        FramesWrite := (r.FramesWrite + 1) % VIDEO_SURFACES_MAX
        FramesFilled := r.FramesFilled + 1 }, false)
  else
    ({ r with
        SurfacesRb := r.SurfacesRb.set r.FramesDeintWrite (some frame)
        FramesDeintWrite := (r.FramesDeintWrite + 1) % VIDEO_SURFACES_MAX
        FramesDeintFilled := r.FramesDeintFilled + 1 }, false)

/-- One attempt of the `fillframe:` section of `VideoFilterThread`
(lines 1152-1167) to push a filtered frame into ring 2: the slot is
written only while the occupancy is below `VIDEO_SURFACES_MAX - 1`,
otherwise the thread sleeps and retries (`usleep(10000); goto fillframe`),
returning `false` here.  The `Deint_Close` early exit is not taken. -/
def fillframe (r : DrmRender) (filt_frame : Nat) : DrmRender × Bool :=
  if r.FramesDeintFilled < (VIDEO_SURFACES_MAX : Int) - 1 then
    ({ r with
        SurfacesRb := r.SurfacesRb.set r.FramesDeintWrite (some filt_frame)
        FramesDeintWrite := (r.FramesDeintWrite + 1) % VIDEO_SURFACES_MAX
        FramesDeintFilled := r.FramesDeintFilled + 1 }, true)
  else
    (r, false)

/-- In a FIFO ring with read cursor `read` and occupancy `filled`, slot `i`
holds a not-yet-consumed entry exactly when `i` lies in the window of
`filled` slots starting at `read` (modulo the capacity). -/
def slotOccupied (read : Nat) (filled : Int) (i : Nat) : Bool :=
  (List.range filled.toNat).any
    (fun k => (read + k) % VIDEO_SURFACES_MAX == i)

/-- The ingest gate of `DrmDisplayHandlerThread` (lines 849-850): decoder
input — and hence a `VideoRenderFrame` call — is requested only while both
rings are filled below `VIDEO_SURFACES_MAX - 1`. -/
def DrmDisplayHandlerGate (r : DrmRender) : Bool :=
  r.FramesDeintFilled < (VIDEO_SURFACES_MAX : Int) - 1 ∧
    r.FramesFilled < (VIDEO_SURFACES_MAX : Int) - 1

/-- Output parameters of `VideoGetStats`. -/
structure VideoStats where
  missed : Int
  duped : Int
  dropped : Int
  counter : Int
deriving Repr, DecidableEq

/-- The statistics query `VideoGetStats` (lines 1367-1374). -/
def VideoGetStats (r : DrmRender) : VideoStats where
  missed := r.FramesDuped
  duped := r.FramesDuped
  dropped := r.FramesDropped
  counter := r.StartCounter

/-- Value of the slot a ring cursor `i` designates: the source keeps
cursors in `[0, VIDEO_SURFACES_MAX)` by reducing modulo the capacity at
every advance, so the slot index is `i % VIDEO_SURFACES_MAX`. -/
def slotAt (slots : List (Option Nat)) (i : Nat) : Option Nat :=
  slots.getD (i % VIDEO_SURFACES_MAX) none

/-- The occupied FIFO window of a ring: the handles of the `filled`
consecutive slots starting at the read cursor, wrapping modulo the
capacity.  When the occupancy exceeds the capacity the window revisits
slots, which is exactly how the source's drain loops behave. -/
def ringWindow (slots : List (Option Nat)) (read filled : Nat) : List Nat :=
  (List.range filled).filterMap (fun k => slotAt slots (read + k))

/-- Ownership state of the frames handled by the pipeline.  A frame
handle is queued in ring 1 (`FramesRb`, input of the deinterlacer
thread), queued in ring 2 (`SurfacesRb`, input of the presentation
loop), bound to the most recently committed buffer (`act_buf->frame`),
parked in `render->lastframe` (awaiting the next flip completion), or
already passed to `av_frame_free`.  Both rings are the 4-slot arrays of
the source with their write/read cursors and occupancy counters;
`entered` is the ghost list of every handle that ever entered the
pipeline (from `VideoRenderFrame`, or allocated by the deinterlacer for
its output). -/
structure PipeState where
  ring1 : List (Option Nat)
  write1 : Nat
  read1 : Nat
  filled1 : Int
  ring2 : List (Option Nat)
  write2 : Nat
  read2 : Nat
  filled2 : Int
  act : Option Nat
  lastframe : Option Nat
  freed : List Nat
  entered : List Nat
deriving Repr, DecidableEq

/-- The pipeline before any frame has been enqueued (`VideoNewRender`
zeroes everything; `lastframe` and `act_buf` are NULL). -/
def PipeState.init : PipeState where
  ring1 := [none, none, none, none]
  write1 := 0
  read1 := 0
  filled1 := 0
  ring2 := [none, none, none, none]
  write2 := 0
  read2 := 0
  filled2 := 0
  act := none
  lastframe := none
  freed := []
  entered := []

/-- Every ownership location currently holding a frame handle, `freed`
included: the occupied windows of both rings, the committed buffer, the
`lastframe` slot, and the freed handles. -/
def PipeState.locations (s : PipeState) : List Nat :=
  ringWindow s.ring1 s.read1 s.filled1.toNat ++
    ringWindow s.ring2 s.read2 s.filled2.toNat ++
    s.act.toList ++ s.lastframe.toList ++ s.freed

/-- One ownership-relevant event of the pipeline.  Each constructor is
one code path of `video_drm.c`; a decoder never re-enqueues a live
handle (spec data-model invariant: "a Frame handle must never be
enqueued twice"), so events introducing a handle carry fresh ones.
Ring pushes write their slot unconditionally, exactly like the source;
`gated = true` restricts the relation to the interleavings in which
`VideoRenderFrame` is only called under the ingest gate of
`DrmDisplayHandlerThread` (lines 849-850, both occupancies below
`VIDEO_SURFACES_MAX - 1`), while `gated = false` places no such caller
discipline.  The deinterlacer's ring 2 push carries its own in-code gate
either way (lines 1158-1167). -/
inductive PipeStep (gated : Bool) : PipeState → PipeState → Prop where
  /-- `VideoRenderFrame`, `Closing` clear, non-interlaced path
  (lines 1267-1273): the frame is written over the slot at the ring 2
  write cursor — with no occupancy check — and the cursor and occupancy
  advance. -/
  | enqueue2 (s : PipeState) (f : Nat) (hf : f ∉ s.entered)
      (hgate : gated = true → s.filled2 < (VIDEO_SURFACES_MAX : Int) - 1) :
      PipeStep gated s { s with
        ring2 := s.ring2.set s.write2 (some f)
        write2 := (s.write2 + 1) % VIDEO_SURFACES_MAX
        filled2 := s.filled2 + 1
        entered := s.entered ++ [f] }
  /-- `VideoRenderFrame`, `Closing` clear, interlaced/SWDeinterlacer path
  (lines 1262-1266): the same unconditional push into ring 1. -/
  | enqueue1 (s : PipeState) (f : Nat) (hf : f ∉ s.entered)
      (hgate : gated = true → s.filled1 < (VIDEO_SURFACES_MAX : Int) - 1) :
      PipeStep gated s { s with
        ring1 := s.ring1.set s.write1 (some f)
        write1 := (s.write1 + 1) % VIDEO_SURFACES_MAX
        filled1 := s.filled1 + 1
        entered := s.entered ++ [f] }
  /-- `VideoRenderFrame`, `Closing` set (lines 1249-1252): the frame is
  freed immediately and never enters a ring. -/
  | enqueueClosing (s : PipeState) (f : Nat) (hf : f ∉ s.entered) :
      PipeStep gated s { s with freed := s.freed ++ [f],
                                entered := s.entered ++ [f] }
  /-- The deinterlacer thread's `fillframe:` push of one of its own
  freshly allocated output frames into ring 2 (lines 1152-1167): unlike
  `VideoRenderFrame` this push is gated in the code itself, retrying
  while the occupancy is at least `VIDEO_SURFACES_MAX - 1`. -/
  | fillframePush (s : PipeState) (f : Nat) (hf : f ∉ s.entered)
      (hgate : s.filled2 < (VIDEO_SURFACES_MAX : Int) - 1) :
      PipeStep gated s { s with
        ring2 := s.ring2.set s.write2 (some f)
        write2 := (s.write2 + 1) % VIDEO_SURFACES_MAX
        filled2 := s.filled2 + 1
        entered := s.entered ++ [f] }
  /-- The deinterlacer thread consuming a ring 1 frame
  (`getinframe:`, lines 1104-1109): the slot at the read cursor is
  taken, the cursor and occupancy advance, and the handle is freed right
  after submission to the filter graph, which keeps its own reference
  (`AV_BUFFERSRC_FLAG_KEEP_REF`, free at line 1130); the `Deint_Close`
  drain (lines 1114-1122) frees the same way.  (The logged
  submission-failure branch, line 1128, skips the free and leaks — an
  error path outside the claim's interleavings.) -/
  | filterTake (s : PipeState) (f : Nat)
      (hslot : slotAt s.ring1 s.read1 = some f) (hfill : 1 ≤ s.filled1) :
      PipeStep gated s { s with
        read1 := (s.read1 + 1) % VIDEO_SURFACES_MAX
        filled1 := s.filled1 - 1
        freed := s.freed ++ [f] }
  /-- A pass of `DrmFrame2Drm` that leaves ownership where it is: the
  duplicate branch (lines 784-792), an audio-clock re-poll (lines
  774-781), or the first field of an interlaced CPU-path frame
  (line 817, `buf->frame = NULL` with the ring cursor untouched). -/
  | duplicate (s : PipeState) : PipeStep gated s s
  /-- The drop branch of `DrmFrame2Drm` (lines 800-804): the handle at
  the ring 2 read cursor is freed and the cursor and occupancy
  advance. -/
  | drop (s : PipeState) (f : Nat)
      (hslot : slotAt s.ring2 s.read2 = some f) (hfill : 1 ≤ s.filled2) :
      PipeStep gated s { s with
        read2 := (s.read2 + 1) % VIDEO_SURFACES_MAX
        filled2 := s.filled2 - 1
        freed := s.freed ++ [f] }
  /-- The show path of `DrmFrame2Drm` (lines 811-824): the handle at the
  ring 2 read cursor is consumed, bound to the committed buffer
  (`buf->frame = frame; render->act_buf = buf`) and page-flipped.  The
  previous completion has already moved the prior committed frame to
  `lastframe`, so `act` is free. -/
  | present (s : PipeState) (f : Nat)
      (hslot : slotAt s.ring2 s.read2 = some f) (hfill : 1 ≤ s.filled2)
      (ha : s.act = none) :
      PipeStep gated s { s with
        read2 := (s.read2 + 1) % VIDEO_SURFACES_MAX
        filled2 := s.filled2 - 1
        act := some f }
  /-- One wake of the completion loop `DrmDisplayFrame` (lines 599-606):
  the frame superseded on screen (`render->lastframe`) is freed and the
  frame of the buffer that just went live becomes the new `lastframe`
  (`render->lastframe = render->act_buf->frame`; after a black-buffer
  commit `act_buf->frame` is NULL, i.e. `act = none`). -/
  | complete (s : PipeState) :
      PipeStep gated s { s with freed := s.freed ++ s.lastframe.toList,
                                lastframe := s.act, act := none }
  /-- `DrmCleanDrm` (lines 616-650), reached from the closing path once
  the black framebuffer is on screen (so the completion loop has already
  emptied `act`): `lastframe` is freed and the ring 2 drain loop frees
  the slot at the read cursor, advances and decrements, until the
  occupancy is zero — i.e. it frees the whole occupied window, slot
  values (not a separate handle list) deciding what is freed. -/
  | clean (s : PipeState) (ha : s.act = none) :
      PipeStep gated s { s with
        freed := s.freed ++ s.lastframe.toList ++
          ringWindow s.ring2 s.read2 s.filled2.toNat
        lastframe := none
        read2 := (s.read2 + s.filled2.toNat) % VIDEO_SURFACES_MAX
        filled2 := 0 }

/-- States the pipeline can reach from the initial state by any
interleaving of enqueue, deinterlace, duplicate, drop, show, completion
and closing-cleanup events; `gated` as in `PipeStep`. -/
def PipeReachable (gated : Bool) (s : PipeState) : Prop :=
  Relation.ReflTransGen (PipeStep gated) PipeState.init s

/-- Structural well-formedness of one ring under gated producers: 4
slots, a reduced read cursor, an occupancy in `[0, VIDEO_SURFACES_MAX-1]`
and the write cursor sitting just past the occupied window. -/
def ringCoherent (slots : List (Option Nat)) (write read : Nat)
    (filled : Int) : Prop :=
  slots.length = VIDEO_SURFACES_MAX ∧ read < VIDEO_SURFACES_MAX ∧
    0 ≤ filled ∧ filled ≤ (VIDEO_SURFACES_MAX : Int) - 1 ∧
    write = (read + filled.toNat) % VIDEO_SURFACES_MAX

/-- Invariant of the gated pipeline: both rings are coherent, counting
multiplicities the handles across all ownership locations are exactly
the entered handles, and the entered handles are pairwise distinct. -/
def PipeInv (s : PipeState) : Prop :=
  ringCoherent s.ring1 s.write1 s.read1 s.filled1 ∧
  ringCoherent s.ring2 s.write2 s.read2 s.filled2 ∧
  (∀ a, s.locations.count a = s.entered.count a) ∧
  s.entered.Nodup

/-- PRIME import data of a frame (`AVDRMFrameDescriptor`): the dma-buf
file descriptor `objects[0].fd` and the two plane pitch/offset pairs of
`layers[0]` that `DrmSetupFB` records. -/
structure PrimeData where
  fd : Int
  pitch0 : Nat
  offset0 : Nat
  pitch1 : Nat
  offset1 : Nat
deriving Repr, DecidableEq

/-- One `struct drm_buf` of the PRIME pool `render->bufs[0..prime_buffers)`
restricted to the fields the PRIME path uses. -/
structure DrmBuf where
  fd_prime : Int
  width : Nat
  height : Nat
  pitch0 : Nat
  offset0 : Nat
  pitch1 : Nat
  offset1 : Nat
deriving Repr, DecidableEq

/-- The PRIME branch of `DrmSetupFB` (lines 463-476): the fd is imported
into a local handle (`drmPrimeFDToHandle`) and the per-plane
pitches/offsets are copied from the import descriptor before
`drmModeAddFB2` registers the framebuffer. -/
def DrmSetupFB_prime (buf : DrmBuf) (p : PrimeData) : DrmBuf :=
  { buf with pitch0 := p.pitch0, offset0 := p.offset0,
             pitch1 := p.pitch1, offset1 := p.offset1 }

/-- The PRIME buffer acquisition of `DrmFrame2Drm` (lines 696-719): the
pool is searched for an entry whose `fd_prime` equals the frame's import
fd; only on a miss is the next pool entry initialised from the frame and
then imported via `DrmSetupFB`: the updated pool is returned along with
whether a handle import (`drmPrimeFDToHandle`, `drmModeAddFB2`) occurred.  The
list models `bufs[0..prime_buffers)`; the source indexes a fixed
36-element array, so growth past it is the unbounded-pool behaviour the
spec flags separately. -/
def acquirePrimeBuf (bufs : List DrmBuf) (p : PrimeData) (w h : Nat) :
    List DrmBuf × Bool :=
  match bufs.find? (fun b => b.fd_prime == p.fd) with
  | some _ => (bufs, false)
  | none =>
      (bufs ++ [DrmSetupFB_prime
        { fd_prime := p.fd, width := w, height := h,
          pitch0 := 0, offset0 := 0, pitch1 := 0, offset1 := 0 } p], true)

/-- One presented PRIME frame `fr = (primedata, width, height)` applied
to the pool, also appending to the ghost list of imported fds when a
handle import was performed. -/
def primeStreamStep (st : List DrmBuf × List Int)
    (fr : PrimeData × Nat × Nat) : List DrmBuf × List Int :=
  let res := acquirePrimeBuf st.1 fr.1 fr.2.1 fr.2.2
  (res.1, if res.2 then st.2 ++ [fr.1.fd] else st.2)

/-- A stream of PRIME frames presented in order, starting from the empty
pool: returns the final pool and the list of fds that triggered a
handle import, in order. -/
def runPrimeStream (frames : List (PrimeData × Nat × Nat)) :
    List DrmBuf × List Int :=
  frames.foldl primeStreamStep ([], [])

/-- FFmpeg pixel-format and codec-id constants used by
`Video_get_format`. -/
def AV_PIX_FMT_YUV420P : Int := 0

/-- FFmpeg constant `AV_PIX_FMT_NV12`. -/
def AV_PIX_FMT_NV12 : Int := 23

/-- FFmpeg constant `AV_CODEC_ID_MPEG2VIDEO`. -/
def AV_CODEC_ID_MPEG2VIDEO : Int := 2

/-- FFmpeg constant `AV_CODEC_ID_H264`. -/
def AV_CODEC_ID_H264 : Int := 27

/-- FFmpeg constant `AV_CODEC_ID_HEVC`. -/
def AV_CODEC_ID_HEVC : Int := 173

/-- Possible results of `Video_get_format`. -/
inductive GetFormatResult where
  /-- One of the recognised formats was returned from inside the loop. -/
  | pick (fmt : Int) : GetFormatResult
  /-- The loop exited at the `AV_PIX_FMT_NONE` terminator and the result
  is `avcodec_default_get_format(video_ctx, fmt)`. -/
  | libDefault : GetFormatResult
deriving Repr, DecidableEq

/-- The `while (*fmt != AV_PIX_FMT_NONE)` loop of `Video_get_format`
(lines 1064-1081), fuel-bounded.  `fmts` is the format array up to (and
excluding) its `AV_PIX_FMT_NONE` terminator, `idx` the pointer offset.
`none` means the loop has not returned within `fuel` iterations.  Note
the `fmt++` of the source stands after the `return` inside the HEVC
branch and is dead code, so no branch of the loop advances `idx`. -/
def Video_get_format_loop (codec_id : Int) (fmts : List Int) :
    Nat → Nat → Option GetFormatResult
  | _, 0 => none
  | idx, fuel + 1 =>
    match fmts[idx]? with
    | none => some .libDefault
    | some f =>
      if f = AV_PIX_FMT_YUV420P ∧ codec_id = AV_CODEC_ID_MPEG2VIDEO then
        some (.pick AV_PIX_FMT_YUV420P)
      else if f = AV_PIX_FMT_NV12 ∧ codec_id = AV_CODEC_ID_H264 then
        some (.pick AV_PIX_FMT_NV12)
      else if f = AV_PIX_FMT_NV12 ∧ codec_id = AV_CODEC_ID_HEVC then
        some (.pick AV_PIX_FMT_NV12)
      else
        Video_get_format_loop codec_id fmts idx fuel

/-- The pixel-format negotiation callback `Video_get_format`
(lines 1061-1085), fuel-bounded. -/
def Video_get_format (codec_id : Int) (fmts : List Int) (fuel : Nat) :
    Option GetFormatResult :=
  Video_get_format_loop codec_id fmts 0 fuel

/-- DRM fourcc `DRM_FORMAT_NV12`. -/
def DRM_FORMAT_NV12 : Nat := 842094158

/-- DRM fourcc `DRM_FORMAT_ARGB8888`. -/
def DRM_FORMAT_ARGB8888 : Nat := 875713089

/-- DRM plane type property value `DRM_PLANE_TYPE_OVERLAY`. -/
def DRM_PLANE_TYPE_OVERLAY : Nat := 0

/-- DRM plane type property value `DRM_PLANE_TYPE_PRIMARY`. -/
def DRM_PLANE_TYPE_PRIMARY : Nat := 1

/-- A display mode (`drmModeModeInfo`) restricted to the fields
`Drm_find_dev` tests: resolution, refresh rate and the
`DRM_MODE_FLAG_INTERLACE` flag. -/
structure DrmModeInfo where
  hdisplay : Nat
  vdisplay : Nat
  vrefresh : Nat
  interlace : Bool
deriving Repr, DecidableEq

/-- The encoder data `Drm_find_dev` reads (`drmModeEncoder`). -/
structure DrmEncoder where
  crtc_id : Nat
  possible_crtcs : Nat
deriving Repr, DecidableEq

/-- A connector as enumerated by `drmModeGetConnector`; `encoder` is the
result of `drmModeGetEncoder(fd, connector->encoder_id)` (`none` models a
NULL return). -/
structure DrmConnector where
  connector_id : Nat
  connected : Bool
  modes : List DrmModeInfo
  encoder : Option DrmEncoder
deriving Repr, DecidableEq

/-- A plane as enumerated by `drmModeGetPlane`, with its `type` and
`zpos` property values (read through `DrmGetPropertyValue`). -/
structure DrmPlane where
  plane_id : Nat
  possible_crtcs : Nat
  typ : Nat
  zpos : Nat
  formats : List Nat
deriving Repr, DecidableEq

/-- The responses of the DRM device to the enumeration calls of
`Drm_find_dev`: whether `open("/dev/dri/card0")` succeeds, the connector
list of `drmModeGetResources` (an inner `none` is a NULL return of
`drmModeGetConnector`), and the plane list of
`drmModeGetPlaneResources`. -/
structure DrmDevice where
  openOk : Bool
  resources : Option (List (Option DrmConnector))
  planeRes : Option (List DrmPlane)
deriving Repr, DecidableEq

/-- The outputs `Drm_find_dev` accumulates in the render context.  All
fields start zeroed (`VideoNewRender` uses `calloc`); `encoder` is the
local `drmModeEncoder *encoder = 0` that the plane loop dereferences. -/
structure FindDevState where
  connector_id : Nat
  crtc_id : Nat
  mode : DrmModeInfo
  encoder : Option DrmEncoder
  use_zpos : Bool
  zpos_overlay : Nat
  zpos_primary : Nat
  video_plane : Nat
  osd_plane : Nat
deriving Repr, DecidableEq

/-- Zero-initialised `Drm_find_dev` accumulator. -/
def FindDevState.init : FindDevState where
  connector_id := 0
  crtc_id := 0
  mode := ⟨0, 0, 0, false⟩
  encoder := none
  use_zpos := false
  zpos_overlay := 0
  zpos_primary := 0
  video_plane := 0
  osd_plane := 0

/-- The mode search of `Drm_find_dev` (lines 372-384): each mode of the
connector is tested and a 1080p50 progressive mode (or 720p50 when the
`hdr` policy is set) is copied into `render->mode`; later matches win. -/
def modeScan (hdr : Bool) (cur : DrmModeInfo) (modes : List DrmModeInfo) :
    DrmModeInfo :=
  modes.foldl (fun m md =>
    if md.hdisplay = 1920 ∧ md.vdisplay = 1080 ∧ md.vrefresh = 50 ∧
        md.interlace = false ∧ hdr = false then md
    else if md.hdisplay = 1280 ∧ md.vdisplay = 720 ∧ md.vrefresh = 50 ∧
        md.interlace = false ∧ hdr = true then md
    else m) cur

/-- One connector-loop body of `Drm_find_dev` (lines 355-385): a
connected connector with modes records its id, fetches its encoder
(NULL return aborts with `-errno`, modelled `-1`) and records the
encoder's CRTC; the mode search then runs for every connector. -/
def connectorVisit (hdr : Bool) (st : FindDevState) (c : DrmConnector) :
    Except Int FindDevState :=
  let step1 : Except Int FindDevState :=
    if c.connected ∧ c.modes.length > 0 then
      match c.encoder with
      | none => .error (-1)
      | some e => .ok { st with connector_id := c.connector_id,
                                crtc_id := e.crtc_id, encoder := some e }
    else .ok st
  match step1 with
  | .error err => .error err
  | .ok st1 => .ok { st1 with mode := modeScan hdr st1.mode c.modes }

/-- The connector loop of `Drm_find_dev` (lines 354-386), fuel-bounded
because the source reuses the loop variable `i` for the inner mode loop:
after visiting connector `i` the next index is `count_modes + 1` of that
connector, which need not progress.  `none` models a non-terminating
scan; an inner `none` connector is a NULL `drmModeGetConnector`
(`return -errno`, modelled `-2`). -/
def connectorLoop (hdr : Bool) (conns : List (Option DrmConnector)) :
    Nat → Nat → FindDevState → Option (Except Int FindDevState)
  | 0, _, _ => none
  | fuel + 1, i, st =>
    if hlt : i < conns.length then
      match conns.get ⟨i, hlt⟩ with
      | none => some (.error (-2))
      | some c =>
        match connectorVisit hdr st c with
        | .error e => some (.error e)
        | .ok st1 => connectorLoop hdr conns fuel (c.modes.length + 1) st1
    else some (.ok st)

/-- One format test of the plane-classification loop (lines 417-441):
behind the `encoder->possible_crtcs & plane->possible_crtcs` gate, the
first NV12-capable plane becomes the video plane (recording zpos data if
it is not the primary plane, and stealing the plane from the OSD role if
already assigned there) and the first ARGB8888-capable plane becomes the
OSD plane. -/
def planeFormatVisit (e : DrmEncoder) (p : DrmPlane) (st : FindDevState)
    (fmt : Nat) : FindDevState :=
  if e.possible_crtcs &&& p.possible_crtcs ≠ 0 then
    if fmt = DRM_FORMAT_NV12 then
      if st.video_plane = 0 then
        let st := if p.typ ≠ DRM_PLANE_TYPE_PRIMARY
          then { st with use_zpos := true, zpos_overlay := p.zpos }
          else st
        let st := { st with video_plane := p.plane_id }
        if p.plane_id = st.osd_plane then { st with osd_plane := 0 } else st
      else st
    else if fmt = DRM_FORMAT_ARGB8888 then
      if st.osd_plane = 0 then
        let st := if p.typ ≠ DRM_PLANE_TYPE_OVERLAY
          then { st with zpos_primary := p.zpos }
          else st
        { st with osd_plane := p.plane_id }
      else st
    else st
  else st

/-- The plane loop of `Drm_find_dev` (lines 392-444): every format of
every plane is classified.  No branch of this loop can fail or return an
error. -/
def planeScan (e : DrmEncoder) (st : FindDevState)
    (planes : List DrmPlane) : FindDevState :=
  planes.foldl (fun st p =>
    p.formats.foldl (fun st f => planeFormatVisit e p st f) st) st

/-- `Drm_find_dev` (lines 300-456).  Negative error codes stand for the
`-errno` returns of the source: `-3` open failure (line 317), `-4`
`drmModeGetResources` NULL (line 344), `-2` `drmModeGetConnector` NULL
(line 358), `-1` `drmModeGetEncoder` NULL (line 367).  A result of
`none` means the function has no defined result: the connector loop did
not terminate within the fuel, `drmModeGetPlaneResources` returned NULL
(only logged, then dereferenced, line 389-392), or no connector was
connected so the plane loop dereferences the NULL `encoder`
(line 418).  In every remaining case the function runs to `return 0`
(line 455) — plane classification never produces an error. -/
def Drm_find_dev (fuel : Nat) (dev : DrmDevice) (hdr : Bool) :
    Option (Except Int FindDevState) :=
  if dev.openOk = false then some (.error (-3))
  else
    match dev.resources with
    | none => some (.error (-4))
    | some conns =>
      match connectorLoop hdr conns fuel 0 FindDevState.init with
      | none => none
      | some (.error e) => some (.error e)
      | some (.ok st) =>
        match dev.planeRes with
        | none => none
        | some planes =>
          match st.encoder with
          | none => none
          | some e => some (.ok (planeScan e st planes))

end VideoDrm

namespace VideoDrm

/-- C1: outside trick-play (and steady state, `Closing` clear), when the
head frame is more than 55 ms (55·90 ticks) ahead of the audio clock —
as measured by the program's `int diff` of line 782, i.e. the int64
difference truncated to 32 bits — one pass of the `audioclock:` section
increments `FramesDuped` and re-polls the clock (`goto audioclock`): the
ring 2 read cursor and occupancy are unchanged, the frame is not
consumed, and no commit is issued (`repollClock` never reaches
`page_flip:`). -/
theorem sync_duplicate_stalls_without_consuming
    (r : DrmRender) (pts audio_clock delay : Int) (interlaced : Bool)
    (htrick : r.TrickSpeed = 0) (hclose : r.Closing = false)
    (hclock : audio_clock ≠ AV_NOPTS_VALUE)
    (hdiff : toInt32 (pts - audio_clock - delay) > 55 * 90) :
    (syncCycle r pts audio_clock delay interlaced).1.FramesDeintRead
        = r.FramesDeintRead ∧
    (syncCycle r pts audio_clock delay interlaced).1.FramesDeintFilled
        = r.FramesDeintFilled ∧
    (syncCycle r pts audio_clock delay interlaced).1.FramesDuped
        = r.FramesDuped + 1 ∧
    (syncCycle r pts audio_clock delay interlaced).2 = .repollClock := by
  have h1 : ¬(audio_clock = AV_NOPTS_VALUE ∧ r.TrickSpeed = 0) :=
    fun h => hclock h.1
  simp only [syncCycle]
  rw [if_neg h1, if_pos ⟨hdiff, htrick⟩]
  simp [hclose]

/-- C1 witness: audio clock `T = 0`, `frame.pts = T + 60 ms = 5400` ticks,
no configured delay — the duplicate branch fires and the frame stays. -/
theorem sync_duplicate_stalls_without_consuming_witness :
    (syncCycle VideoNewRender 5400 0 0 false).1.FramesDeintRead
        = VideoNewRender.FramesDeintRead ∧
    (syncCycle VideoNewRender 5400 0 0 false).1.FramesDeintFilled
        = VideoNewRender.FramesDeintFilled ∧
    (syncCycle VideoNewRender 5400 0 0 false).1.FramesDuped
        = VideoNewRender.FramesDuped + 1 ∧
    (syncCycle VideoNewRender 5400 0 0 false).2 = .repollClock :=
  sync_duplicate_stalls_without_consuming VideoNewRender 5400 0 0 false
    rfl rfl (by decide) (by decide)

/-- C2: outside trick-play (and steady state), when the head frame is more
than 25 ms behind the audio clock — as measured by the program's
`int diff` of line 782, i.e. the int64 difference truncated to 32 bits —
one pass of the `audioclock:` section increments `FramesDropped`, frees
exactly that frame, advances the ring 2 read cursor by one modulo the
capacity, decrements the occupancy by one, and transfers to `dequeue:`
(`toDequeue` never reaches `page_flip:`, so no commit is issued for the
dropped frame). -/
theorem sync_drop_frees_and_advances
    (r : DrmRender) (pts audio_clock delay : Int) (interlaced : Bool)
    (htrick : r.TrickSpeed = 0) (hclose : r.Closing = false)
    (hclock : audio_clock ≠ AV_NOPTS_VALUE)
    (hdiff : toInt32 (pts - audio_clock - delay) < -25 * 90) :
    (syncCycle r pts audio_clock delay interlaced).1.FramesDeintRead
        = (r.FramesDeintRead + 1) % VIDEO_SURFACES_MAX ∧
    (syncCycle r pts audio_clock delay interlaced).1.FramesDeintFilled
        = r.FramesDeintFilled - 1 ∧
    (syncCycle r pts audio_clock delay interlaced).1.FramesDropped
        = r.FramesDropped + 1 ∧
    (syncCycle r pts audio_clock delay interlaced).2 = .toDequeue := by
  have h1 : ¬(audio_clock = AV_NOPTS_VALUE ∧ r.TrickSpeed = 0) :=
    fun h => hclock h.1
  have h2 : ¬(toInt32 (pts - audio_clock - delay) > 55 * 90 ∧
      r.TrickSpeed = 0) := by
    intro h
    omega
  simp only [syncCycle]
  rw [if_neg h1, if_neg h2, if_pos ⟨hdiff, htrick⟩]
  simp [hclose]

/-- C2 witness: audio clock `T = 0`, `frame.pts = T − 30 ms = −2700` ticks
— the drop branch fires with the ring starting at occupancy 1. -/
theorem sync_drop_frees_and_advances_witness :
    (syncCycle { VideoNewRender with
        SurfacesRb := [some 7, none, none, none]
        FramesDeintFilled := 1 } (-2700) 0 0 false).1.FramesDeintRead
        = (0 + 1) % VIDEO_SURFACES_MAX ∧
    (syncCycle { VideoNewRender with
        SurfacesRb := [some 7, none, none, none]
        FramesDeintFilled := 1 } (-2700) 0 0 false).1.FramesDeintFilled
        = (1 : Int) - 1 ∧
    (syncCycle { VideoNewRender with
        SurfacesRb := [some 7, none, none, none]
        FramesDeintFilled := 1 } (-2700) 0 0 false).1.FramesDropped
        = 0 + 1 ∧
    (syncCycle { VideoNewRender with
        SurfacesRb := [some 7, none, none, none]
        FramesDeintFilled := 1 } (-2700) 0 0 false).2 = .toDequeue :=
  sync_drop_frees_and_advances _ (-2700) 0 0 false rfl rfl
    (by decide) (by decide)

/-- C9: when the `Closing` flag is set, `VideoRenderFrame` frees the
incoming frame (`av_frame_free`) and returns with the render state — in
particular both rings' write cursors and occupancy counters — unchanged. -/
theorem VideoRenderFrame_closing_frees_and_returns
    (r : DrmRender) (frame : Nat) (interlaced swdeint : Bool)
    (h : r.Closing = true) :
    VideoRenderFrame r frame interlaced swdeint = (r, true) := by
  simp [VideoRenderFrame, h]

/-- C9 witness: a closing render context passed a concrete frame. -/
theorem VideoRenderFrame_closing_frees_and_returns_witness :
    VideoRenderFrame { VideoNewRender with Closing := true } 42 true true
      = ({ VideoNewRender with Closing := true }, true) :=
  VideoRenderFrame_closing_frees_and_returns
    { VideoNewRender with Closing := true } 42 true true rfl

/-- C4 counterexample: the push performed by `VideoRenderFrame` does not
busy-wait and has no capacity check.  Started from a ring at full
occupancy `VIDEO_SURFACES_MAX = 4` (slots `10,11,12,13`, read cursor `0`,
write cursor `0`, so slot `0` is the not-yet-consumed head), the push
writes frame `99` over the unconsumed slot `0` and raises the occupancy
count to `5 > 4`. -/
theorem VideoRenderFrame_push_unguarded_counterexample :
    slotOccupied 0 4 0 = true ∧
    (VideoRenderFrame { VideoNewRender with
        SurfacesRb := [some 10, some 11, some 12, some 13]
        FramesDeintFilled := 4 } 99 false false).1.FramesDeintFilled = 5 ∧
    ¬((VideoRenderFrame { VideoNewRender with
        SurfacesRb := [some 10, some 11, some 12, some 13]
        FramesDeintFilled := 4 } 99 false false).1.FramesDeintFilled
          ≤ (VIDEO_SURFACES_MAX : Int)) ∧
    (VideoRenderFrame { VideoNewRender with
        SurfacesRb := [some 10, some 11, some 12, some 13]
        FramesDeintFilled := 4 } 99 false false).1.SurfacesRb
      = [some 99, some 11, some 12, some 13] := by
  decide

/-- In a coherent FIFO ring of capacity 4 whose occupancy is below the
capacity, the slot at the write cursor is not occupied. -/
lemma slotOccupied_at_write_cursor_false (read : Nat) (filled : Int)
    (h0 : 0 ≤ filled) (h4 : filled < (VIDEO_SURFACES_MAX : Int)) :
    slotOccupied read filled
      ((read + filled.toNat) % VIDEO_SURFACES_MAX) = false := by
  simp only [slotOccupied, VIDEO_SURFACES_MAX, List.any_eq_false,
    List.mem_range, beq_iff_eq]
  intro k hk
  simp only [VIDEO_SURFACES_MAX] at h4
  omega

/-- C4 amended: pushes into ring 2 keep the occupancy bounded, but the two
producers differ.  (a) The deinterlacer thread's `fillframe:` push
busy-waits while the occupancy is at least `VIDEO_SURFACES_MAX - 1` and
writes only below that bound, so the occupancy stays in
`[0, VIDEO_SURFACES_MAX - 1]` and a not-yet-consumed slot is never
overwritten.  (b) The push in `VideoRenderFrame` itself never waits; it
overwrites and overflows unless its caller honours the ingest gate of
`DrmDisplayHandlerThread` (occupancy below `VIDEO_SURFACES_MAX - 1`),
under which the same bounds hold. -/
theorem ring2_push_occupancy_bounded
    (r : DrmRender) (f g : Nat)
    (hlo : 0 ≤ r.FramesDeintFilled)
    (hhi : r.FramesDeintFilled ≤ (VIDEO_SURFACES_MAX : Int) - 1)
    (hco : r.FramesDeintWrite
      = (r.FramesDeintRead + r.FramesDeintFilled.toNat) % VIDEO_SURFACES_MAX) :
    (0 ≤ (fillframe r f).1.FramesDeintFilled ∧
     (fillframe r f).1.FramesDeintFilled ≤ (VIDEO_SURFACES_MAX : Int) - 1 ∧
     ((fillframe r f).2 = true →
        slotOccupied r.FramesDeintRead r.FramesDeintFilled
          r.FramesDeintWrite = false)) ∧
    (r.Closing = false → DrmDisplayHandlerGate r = true →
     0 ≤ (VideoRenderFrame r g false false).1.FramesDeintFilled ∧
     (VideoRenderFrame r g false false).1.FramesDeintFilled
        ≤ (VIDEO_SURFACES_MAX : Int) - 1 ∧
     slotOccupied r.FramesDeintRead r.FramesDeintFilled
        r.FramesDeintWrite = false) := by
  have hocc : r.FramesDeintFilled < (VIDEO_SURFACES_MAX : Int) →
      slotOccupied r.FramesDeintRead r.FramesDeintFilled
        r.FramesDeintWrite = false := by
    intro hlt
    rw [hco]
    exact slotOccupied_at_write_cursor_false _ _ hlo hlt
  constructor
  · by_cases hg : r.FramesDeintFilled < (VIDEO_SURFACES_MAX : Int) - 1
    · refine ⟨?_, ?_, fun _ => hocc (by simp only [VIDEO_SURFACES_MAX] at *; omega)⟩
      · simp only [fillframe, if_pos hg]
        omega
      · simp only [fillframe, if_pos hg]
        simp only [VIDEO_SURFACES_MAX] at *
        omega
    · simp only [fillframe, if_neg hg]
      exact ⟨hlo, hhi, by simp⟩
  · intro hclose hgate
    simp only [DrmDisplayHandlerGate, decide_eq_true_eq] at hgate
    obtain ⟨hg2, _⟩ := hgate
    have hfill : (VideoRenderFrame r g false false).1.FramesDeintFilled
        = r.FramesDeintFilled + 1 := by
      simp [VideoRenderFrame, hclose]
    refine ⟨?_, ?_, hocc (by simp only [VIDEO_SURFACES_MAX] at *; omega)⟩
    · rw [hfill]
      omega
    · rw [hfill]
      simp only [VIDEO_SURFACES_MAX] at *
      omega

/-- C4 amended witness: a coherent ring at occupancy 2 (read cursor 1,
write cursor 3) accepts both pushes within bounds. -/
theorem ring2_push_occupancy_bounded_witness :
    (0 ≤ (fillframe { VideoNewRender with
        SurfacesRb := [none, some 21, some 22, none]
        FramesDeintRead := 1
        FramesDeintWrite := 3
        FramesDeintFilled := 2 } 5).1.FramesDeintFilled ∧
     (fillframe { VideoNewRender with
        SurfacesRb := [none, some 21, some 22, none]
        FramesDeintRead := 1
        FramesDeintWrite := 3
        FramesDeintFilled := 2 } 5).1.FramesDeintFilled
        ≤ (VIDEO_SURFACES_MAX : Int) - 1 ∧
     ((fillframe { VideoNewRender with
        SurfacesRb := [none, some 21, some 22, none]
        FramesDeintRead := 1
        FramesDeintWrite := 3
        FramesDeintFilled := 2 } 5).2 = true →
        slotOccupied 1 2 3 = false)) ∧
    (({ VideoNewRender with
        SurfacesRb := [none, some 21, some 22, none]
        FramesDeintRead := 1
        FramesDeintWrite := 3
        FramesDeintFilled := 2 } : DrmRender).Closing = false →
     DrmDisplayHandlerGate { VideoNewRender with
        SurfacesRb := [none, some 21, some 22, none]
        FramesDeintRead := 1
        FramesDeintWrite := 3
        FramesDeintFilled := 2 } = true →
     0 ≤ (VideoRenderFrame { VideoNewRender with
        SurfacesRb := [none, some 21, some 22, none]
        FramesDeintRead := 1
        FramesDeintWrite := 3
        FramesDeintFilled := 2 } 6 false false).1.FramesDeintFilled ∧
     (VideoRenderFrame { VideoNewRender with
        SurfacesRb := [none, some 21, some 22, none]
        FramesDeintRead := 1
        FramesDeintWrite := 3
        FramesDeintFilled := 2 } 6 false false).1.FramesDeintFilled
        ≤ (VIDEO_SURFACES_MAX : Int) - 1 ∧
     slotOccupied 1 2 3 = false) :=
  ring2_push_occupancy_bounded _ 5 6 (by decide) (by decide) (by decide)

/-- C10: `VideoGetStats` writes the duplicated-frame counter to both the
`missed` and `duped` outputs, the dropped-frame counter to `dropped`, and
the start counter to `counter`, for every render state. -/
theorem VideoGetStats_reports_counters (r : DrmRender) :
    (VideoGetStats r).missed = r.FramesDuped ∧
    (VideoGetStats r).duped = r.FramesDuped ∧
    (VideoGetStats r).missed = (VideoGetStats r).duped ∧
    (VideoGetStats r).dropped = r.FramesDropped ∧
    (VideoGetStats r).counter = r.StartCounter := by
  simp [VideoGetStats]

/-- A cursor reduced modulo the capacity designates the same slot. -/
lemma slotAt_mod_add (slots : List (Option Nat)) (i k : Nat) :
    slotAt slots (i % VIDEO_SURFACES_MAX + k) = slotAt slots (i + k) := by
  simp only [slotAt, VIDEO_SURFACES_MAX, Nat.mod_add_mod]

/-- A window based at a reduced cursor equals the window at the raw
cursor. -/
lemma ringWindow_read_mod (slots : List (Option Nat)) (read n : Nat) :
    ringWindow slots (read % VIDEO_SURFACES_MAX) n
      = ringWindow slots read n := by
  simp only [ringWindow]
  exact List.filterMap_congr (fun k _ => slotAt_mod_add slots read k)

/-- The empty window. -/
lemma ringWindow_zero (slots : List (Option Nat)) (read : Nat) :
    ringWindow slots read 0 = [] := rfl

/-- Peeling the head slot off a nonempty window. -/
lemma ringWindow_succ (slots : List (Option Nat)) (read n : Nat) :
    ringWindow slots read (n + 1)
      = (slotAt slots read).toList ++ ringWindow slots (read + 1) n := by
  simp only [ringWindow, List.range_succ_eq_map, List.filterMap_cons,
    List.filterMap_map, Nat.add_zero]
  have harg : ((fun k => slotAt slots (read + k)) ∘ Nat.succ)
      = fun k => slotAt slots (read + 1 + k) := by
    funext k
    simp only [Function.comp_apply]
    congr 1
    omega
  rw [harg]
  cases h : slotAt slots read with
  | none => simp
  | some b => simp

/-- Writing the slot just past a sub-capacity window appends the new
handle to the window and disturbs no occupied slot. -/
lemma ringWindow_set_write (slots : List (Option Nat))
    (hlen : slots.length = VIDEO_SURFACES_MAX) (read filled : Nat)
    (hfill : filled < VIDEO_SURFACES_MAX) (f : Nat) :
    ringWindow (slots.set ((read + filled) % VIDEO_SURFACES_MAX) (some f))
        read (filled + 1)
      = ringWindow slots read filled ++ [f] := by
  have hmax : VIDEO_SURFACES_MAX = 4 := rfl
  simp only [ringWindow, List.range_succ, List.filterMap_append]
  have h1 : List.filterMap
      (fun k => slotAt (slots.set ((read + filled) % VIDEO_SURFACES_MAX)
        (some f)) (read + k)) (List.range filled)
      = List.filterMap (fun k => slotAt slots (read + k))
          (List.range filled) := by
    apply List.filterMap_congr
    intro k hk
    rw [List.mem_range] at hk
    simp only [slotAt, List.getD_eq_getElem?_getD]
    rw [List.getElem?_set_ne]
    simp only [hmax] at hfill ⊢
    omega
  have hv : slotAt (slots.set ((read + filled) % VIDEO_SURFACES_MAX)
      (some f)) (read + filled) = some f := by
    simp only [slotAt, List.getD_eq_getElem?_getD]
    rw [List.getElem?_set_self]
    · rfl
    · rw [hlen, hmax]
      omega
  have h2 : List.filterMap
      (fun k => slotAt (slots.set ((read + filled) % VIDEO_SURFACES_MAX)
        (some f)) (read + k)) [filled] = [f] := by
    simp [List.filterMap_cons, hv]
  rw [h1, h2]

/-- Every gated pipeline event preserves the invariant: ring coherence
and the exactly-once ownership accounting. -/
lemma pipeStep_preserves_inv {s s' : PipeState}
    (hstep : PipeStep true s s') (hinv : PipeInv s) : PipeInv s' := by
  obtain ⟨hc1, hc2, hcount, hnodup⟩ := hinv
  obtain ⟨hl1, hr1, hf1lo, hf1hi, hw1⟩ := hc1
  obtain ⟨hl2, hr2, hf2lo, hf2hi, hw2⟩ := hc2
  have hmax : VIDEO_SURFACES_MAX = 4 := rfl
  cases hstep with
  | enqueue2 f hf hgate =>
      have hg := hgate rfl
      have ht : (s.filled2 + 1).toNat = s.filled2.toNat + 1 := by omega
      have hwin := ringWindow_set_write s.ring2 hl2 s.read2 s.filled2.toNat
        (by omega) f
      refine ⟨⟨hl1, hr1, hf1lo, hf1hi, hw1⟩, ⟨?_, hr2, ?_, ?_, ?_⟩,
        fun a => ?_, ?_⟩
      · dsimp only
        rw [List.length_set]
        exact hl2
      · dsimp only
        omega
      · dsimp only
        omega
      · dsimp only
        simp only [hmax] at *
        omega
      · have hc := hcount a
        simp only [PipeState.locations, ht, hw2, hwin, List.count_append,
          List.count_cons, List.count_nil] at hc ⊢
        omega
      · simp [List.nodup_append, hnodup, hf]
  | enqueue1 f hf hgate =>
      have hg := hgate rfl
      have ht : (s.filled1 + 1).toNat = s.filled1.toNat + 1 := by omega
      have hwin := ringWindow_set_write s.ring1 hl1 s.read1 s.filled1.toNat
        (by omega) f
      refine ⟨⟨?_, hr1, ?_, ?_, ?_⟩, ⟨hl2, hr2, hf2lo, hf2hi, hw2⟩,
        fun a => ?_, ?_⟩
      · dsimp only
        rw [List.length_set]
        exact hl1
      · dsimp only
        omega
      · dsimp only
        omega
      · dsimp only
        simp only [hmax] at *
        omega
      · have hc := hcount a
        simp only [PipeState.locations, ht, hw1, hwin, List.count_append,
          List.count_cons, List.count_nil] at hc ⊢
        omega
      · simp [List.nodup_append, hnodup, hf]
  | enqueueClosing f hf =>
      refine ⟨⟨hl1, hr1, hf1lo, hf1hi, hw1⟩, ⟨hl2, hr2, hf2lo, hf2hi, hw2⟩,
        fun a => ?_, ?_⟩
      · have hc := hcount a
        simp only [PipeState.locations, List.count_append, List.count_cons,
          List.count_nil] at hc ⊢
        omega
      · simp [List.nodup_append, hnodup, hf]
  | fillframePush f hf hgate =>
      have ht : (s.filled2 + 1).toNat = s.filled2.toNat + 1 := by omega
      have hwin := ringWindow_set_write s.ring2 hl2 s.read2 s.filled2.toNat
        (by omega) f
      refine ⟨⟨hl1, hr1, hf1lo, hf1hi, hw1⟩, ⟨?_, hr2, ?_, ?_, ?_⟩,
        fun a => ?_, ?_⟩
      · dsimp only
        rw [List.length_set]
        exact hl2
      · dsimp only
        omega
      · dsimp only
        omega
      · dsimp only
        simp only [hmax] at *
        omega
      · have hc := hcount a
        simp only [PipeState.locations, ht, hw2, hwin, List.count_append,
          List.count_cons, List.count_nil] at hc ⊢
        omega
      · simp [List.nodup_append, hnodup, hf]
  | filterTake f hslot hfill =>
      have ht : s.filled1.toNat = (s.filled1 - 1).toNat + 1 := by omega
      refine ⟨⟨hl1, ?_, ?_, ?_, ?_⟩, ⟨hl2, hr2, hf2lo, hf2hi, hw2⟩,
        fun a => ?_, hnodup⟩
      · dsimp only
        simp only [hmax] at *
        omega
      · dsimp only
        omega
      · dsimp only
        omega
      · dsimp only
        simp only [hmax] at *
        omega
      · have hc := hcount a
        unfold PipeState.locations at hc
        rw [ht, ringWindow_succ, hslot] at hc
        simp only [PipeState.locations, ringWindow_read_mod,
          Option.toList_some, List.count_append, List.count_cons,
          List.count_nil] at hc ⊢
        omega
  | duplicate =>
      exact ⟨⟨hl1, hr1, hf1lo, hf1hi, hw1⟩, ⟨hl2, hr2, hf2lo, hf2hi, hw2⟩,
        hcount, hnodup⟩
  | drop f hslot hfill =>
      have ht : s.filled2.toNat = (s.filled2 - 1).toNat + 1 := by omega
      refine ⟨⟨hl1, hr1, hf1lo, hf1hi, hw1⟩, ⟨hl2, ?_, ?_, ?_, ?_⟩,
        fun a => ?_, hnodup⟩
      · dsimp only
        simp only [hmax] at *
        omega
      · dsimp only
        omega
      · dsimp only
        omega
      · dsimp only
        simp only [hmax] at *
        omega
      · have hc := hcount a
        unfold PipeState.locations at hc
        rw [ht, ringWindow_succ, hslot] at hc
        simp only [PipeState.locations, ringWindow_read_mod,
          Option.toList_some, List.count_append, List.count_cons,
          List.count_nil] at hc ⊢
        omega
  | present f hslot hfill ha =>
      have ht : s.filled2.toNat = (s.filled2 - 1).toNat + 1 := by omega
      refine ⟨⟨hl1, hr1, hf1lo, hf1hi, hw1⟩, ⟨hl2, ?_, ?_, ?_, ?_⟩,
        fun a => ?_, hnodup⟩
      · dsimp only
        simp only [hmax] at *
        omega
      · dsimp only
        omega
      · dsimp only
        omega
      · dsimp only
        simp only [hmax] at *
        omega
      · have hc := hcount a
        unfold PipeState.locations at hc
        rw [ht, ringWindow_succ, hslot, ha] at hc
        simp only [PipeState.locations, ringWindow_read_mod,
          Option.toList_some, Option.toList_none, List.count_append,
          List.count_cons, List.count_nil] at hc ⊢
        omega
  | complete =>
      refine ⟨⟨hl1, hr1, hf1lo, hf1hi, hw1⟩, ⟨hl2, hr2, hf2lo, hf2hi, hw2⟩,
        fun a => ?_, hnodup⟩
      have hc := hcount a
      simp only [PipeState.locations, Option.toList_none, List.count_append,
        List.count_nil] at hc ⊢
      omega
  | clean ha =>
      refine ⟨⟨hl1, hr1, hf1lo, hf1hi, hw1⟩, ⟨hl2, ?_, ?_, ?_, ?_⟩,
        fun a => ?_, hnodup⟩
      · dsimp only
        simp only [hmax] at *
        omega
      · dsimp only
        omega
      · dsimp only
        simp only [hmax] at *
        omega
      · dsimp only
        simp only [hmax] at *
        omega
      · have hc := hcount a
        unfold PipeState.locations at hc
        simp only [ha, PipeState.locations, Int.toNat_zero, ringWindow_zero,
          Option.toList_none, List.count_append, List.count_nil] at hc ⊢
        omega

/-- The invariant holds in every state the gated pipeline can reach. -/
lemma pipeReachable_inv (s : PipeState) (h : PipeReachable true s) :
    PipeInv s := by
  induction h with
  | refl =>
      refine ⟨?_, ?_, fun a => rfl, ?_⟩
      · exact ⟨rfl, by decide, by decide, by decide, rfl⟩
      · exact ⟨rfl, by decide, by decide, by decide, rfl⟩
      · simp [PipeState.init]
  | tail hsteps hstep ih =>
      exact pipeStep_preserves_inv hstep ih

/-- C3 counterexample: without the caller-side ingest gate, five
`VideoRenderFrame` pushes of frames 1..5 into ring 2 (each a faithful,
check-free slot write) drive the occupancy to 5 on a 4-slot ring, the
fifth overwriting the unconsumed head slot holding frame 1; the closing
cleanup then drains the wrapped 5-slot window, freeing what the slots
hold: `[5, 2, 3, 4, 5]`.  In the final state both rings are empty and
nothing is in flight, yet frame 1 — which entered the pipeline — was
never freed (a leak) and frame 5 was freed twice (a double free),
falsifying the claim's "freed exactly once, no double-free and no leak,
for every interleaving". -/
theorem ungated_enqueue_leaks_and_double_frees_counterexample :
    PipeReachable false
      ⟨[none, none, none, none], 0, 0, 0,
        [some 5, some 2, some 3, some 4], 1, 1, 0,
        none, none, [5, 2, 3, 4, 5], [1, 2, 3, 4, 5]⟩ ∧
    (1 : Nat) ∈ [1, 2, 3, 4, 5] ∧
    List.count 1 [5, 2, 3, 4, 5] = 0 ∧
    List.count 5 [5, 2, 3, 4, 5] = 2 := by
  refine ⟨?_, by decide, by decide, by decide⟩
  have h1 : PipeStep false PipeState.init
      (⟨[none, none, none, none], 0, 0, 0,
        [some 1, none, none, none], 1, 0, 1,
        none, none, [], [1]⟩ : PipeState) :=
    PipeStep.enqueue2 PipeState.init 1 (by decide) (by decide)
  have h2 : PipeStep false
      (⟨[none, none, none, none], 0, 0, 0,
        [some 1, none, none, none], 1, 0, 1,
        none, none, [], [1]⟩ : PipeState)
      (⟨[none, none, none, none], 0, 0, 0,
        [some 1, some 2, none, none], 2, 0, 2,
        none, none, [], [1, 2]⟩ : PipeState) :=
    PipeStep.enqueue2 _ 2 (by decide) (by decide)
  have h3 : PipeStep false
      (⟨[none, none, none, none], 0, 0, 0,
        [some 1, some 2, none, none], 2, 0, 2,
        none, none, [], [1, 2]⟩ : PipeState)
      (⟨[none, none, none, none], 0, 0, 0,
        [some 1, some 2, some 3, none], 3, 0, 3,
        none, none, [], [1, 2, 3]⟩ : PipeState) :=
    PipeStep.enqueue2 _ 3 (by decide) (by decide)
  have h4 : PipeStep false
      (⟨[none, none, none, none], 0, 0, 0,
        [some 1, some 2, some 3, none], 3, 0, 3,
        none, none, [], [1, 2, 3]⟩ : PipeState)
      (⟨[none, none, none, none], 0, 0, 0,
        [some 1, some 2, some 3, some 4], 0, 0, 4,
        none, none, [], [1, 2, 3, 4]⟩ : PipeState) :=
    PipeStep.enqueue2 _ 4 (by decide) (by decide)
  have h5 : PipeStep false
      (⟨[none, none, none, none], 0, 0, 0,
        [some 1, some 2, some 3, some 4], 0, 0, 4,
        none, none, [], [1, 2, 3, 4]⟩ : PipeState)
      (⟨[none, none, none, none], 0, 0, 0,
        [some 5, some 2, some 3, some 4], 1, 0, 5,
        none, none, [], [1, 2, 3, 4, 5]⟩ : PipeState) :=
    PipeStep.enqueue2 _ 5 (by decide) (by decide)
  have h6 : PipeStep false
      (⟨[none, none, none, none], 0, 0, 0,
        [some 5, some 2, some 3, some 4], 1, 0, 5,
        none, none, [], [1, 2, 3, 4, 5]⟩ : PipeState)
      (⟨[none, none, none, none], 0, 0, 0,
        [some 5, some 2, some 3, some 4], 1, 1, 0,
        none, none, [5, 2, 3, 4, 5], [1, 2, 3, 4, 5]⟩ : PipeState) :=
    PipeStep.clean _ rfl
  exact Relation.ReflTransGen.tail
    (Relation.ReflTransGen.tail
      (Relation.ReflTransGen.tail
        (Relation.ReflTransGen.tail
          (Relation.ReflTransGen.tail
            (Relation.ReflTransGen.single h1) h2) h3) h4) h5) h6

/-- C3 amended: over every interleaving of gated ingestion (the ingest
loop of `DrmDisplayHandlerThread` requests decoder input only while both
rings are below `VIDEO_SURFACES_MAX - 1`; the deinterlacer's ring 2 push
carries its own such gate), deinterlace consumption, show,
duplicate-past, drop, completion and closing-cleanup events, each frame
handle that entered the pipeline sits in exactly one ownership location
(either ring's occupied window, the committed buffer, `lastframe`, or
freed) — so it is freed at most once (`freed` has no duplicates, no
double-free), everything freed did enter the pipeline, and once both
rings are empty with nothing in flight after the closing cleanup, every
entered frame has been freed (no leak).  Without the caller-side gate on
`VideoRenderFrame`, the exactly-once property fails (see the
counterexample). -/
theorem frame_freed_exactly_once_gated (s : PipeState)
    (h : PipeReachable true s) :
    (∀ f ∈ s.entered, s.locations.count f = 1) ∧
    s.freed.Nodup ∧
    (∀ f ∈ s.freed, f ∈ s.entered) ∧
    (s.filled1 = 0 → s.filled2 = 0 → s.act = none → s.lastframe = none →
      ∀ f ∈ s.entered, f ∈ s.freed) := by
  obtain ⟨hc1, hc2, hcount, hnodup⟩ := pipeReachable_inv s h
  have hone : ∀ f ∈ s.entered, s.locations.count f = 1 := by
    intro f hf
    rw [hcount f]
    exact List.count_eq_one_of_mem hnodup hf
  have hlocnodup : s.locations.Nodup := by
    rw [List.nodup_iff_count_le_one]
    intro a
    rw [hcount a]
    exact List.nodup_iff_count_le_one.mp hnodup a
  refine ⟨hone, ?_, ?_, ?_⟩
  · have hl := hlocnodup
    unfold PipeState.locations at hl
    exact hl.of_append_right
  · intro f hf
    by_contra hno
    have h0 : s.entered.count f = 0 := List.count_eq_zero.mpr hno
    have h1 : s.locations.count f = 0 := by rw [hcount f, h0]
    have : f ∈ s.locations := by
      unfold PipeState.locations
      exact List.mem_append_right _ hf
    exact (List.count_eq_zero.mp h1) this
  · intro hfl1 hfl2 hact hlast f hf
    have h1 := hone f hf
    rw [PipeState.locations, hfl1, hfl2, hact, hlast] at h1
    simp only [Int.toNat_zero, ringWindow_zero, Option.toList_none,
      List.nil_append, List.append_nil] at h1
    by_contra hno
    rw [List.count_eq_zero.mpr hno] at h1
    exact absurd h1 (by decide)

/-- C3 amended witness: the gated trace enqueue frame 1, show it, observe
the flip completion, then close — frame 1 ends up freed exactly once by
the closing cleanup, leaving no leak. -/
theorem frame_freed_exactly_once_gated_witness :
    (∀ f ∈ ([1] : List Nat),
      (PipeState.locations ⟨[none, none, none, none], 0, 0, 0,
        [some 1, none, none, none], 1, 1, 0,
        none, none, [1], [1]⟩).count f = 1) ∧
    ([1] : List Nat).Nodup ∧
    (∀ f ∈ ([1] : List Nat), f ∈ ([1] : List Nat)) ∧
    ((0 : Int) = 0 → (0 : Int) = 0 → (none : Option Nat) = none →
      (none : Option Nat) = none →
      ∀ f ∈ ([1] : List Nat), f ∈ ([1] : List Nat)) :=
  frame_freed_exactly_once_gated
    ⟨[none, none, none, none], 0, 0, 0,
      [some 1, none, none, none], 1, 1, 0,
      none, none, [1], [1]⟩
    (Relation.ReflTransGen.tail
      (Relation.ReflTransGen.tail
        (Relation.ReflTransGen.tail
          (Relation.ReflTransGen.single
            (PipeStep.enqueue2 PipeState.init 1 (by decide) (by decide)))
          (PipeStep.present _ 1 rfl (by decide) rfl))
        (PipeStep.complete _))
      (PipeStep.clean _ rfl))

/-- One acquisition step preserves the import accounting of the PRIME
pool: the pool's fds (in order) are exactly the fds imported so far, and
no fd has been imported twice. -/
lemma acquirePrimeBuf_preserves_accounting (bufs : List DrmBuf)
    (p : PrimeData) (w h : Nat) (imps : List Int)
    (hmap : bufs.map DrmBuf.fd_prime = imps) (hnd : imps.Nodup) :
    (acquirePrimeBuf bufs p w h).1.map DrmBuf.fd_prime
      = (if (acquirePrimeBuf bufs p w h).2 then imps ++ [p.fd] else imps) ∧
    (if (acquirePrimeBuf bufs p w h).2 then imps ++ [p.fd] else imps).Nodup := by
  rcases hfind : bufs.find? (fun b => b.fd_prime == p.fd) with _ | b
  · have hnotin : p.fd ∉ imps := by
      rw [← hmap]
      simp only [List.mem_map]
      rintro ⟨b, hb, hfd⟩
      have hne := List.find?_eq_none.mp hfind b hb
      simp [hfd] at hne
    constructor
    · simp [acquirePrimeBuf, hfind, DrmSetupFB_prime, hmap]
    · simp [acquirePrimeBuf, hfind, List.nodup_append, hnd, hnotin]
  · constructor
    · simp [acquirePrimeBuf, hfind, hmap]
    · simp [acquirePrimeBuf, hfind, hnd]

/-- The import accounting is an invariant of whole presented streams. -/
lemma primeStream_fold_accounting (fs : List (PrimeData × Nat × Nat)) :
    ∀ bufs imps, bufs.map DrmBuf.fd_prime = imps → imps.Nodup →
    ((fs.foldl primeStreamStep (bufs, imps)).1.map DrmBuf.fd_prime
        = (fs.foldl primeStreamStep (bufs, imps)).2) ∧
    (fs.foldl primeStreamStep (bufs, imps)).2.Nodup := by
  induction fs with
  | nil =>
      intro bufs imps hmap hnd
      exact ⟨hmap, hnd⟩
  | cons fr fs ih =>
      intro bufs imps hmap hnd
      obtain ⟨h1, h2⟩ :=
        acquirePrimeBuf_preserves_accounting bufs fr.1 fr.2.1 fr.2.2 imps hmap hnd
      simpa only [List.foldl_cons, primeStreamStep] using ih _ _ h1 h2

/-- C7: at most one hardware buffer descriptor exists per distinct
PRIME-import fd.  (i) Acquiring a frame whose fd is already in the pool
performs no import and leaves the pool unchanged; (ii) over every
presented stream, the pool's `fd_prime` entries are exactly the fds that
were imported, and no fd is ever imported (and hence described) twice. -/
theorem prime_pool_one_descriptor_per_fd :
    (∀ (bufs : List DrmBuf) (p : PrimeData) (w h : Nat),
        (∃ b ∈ bufs, b.fd_prime = p.fd) →
        acquirePrimeBuf bufs p w h = (bufs, false)) ∧
    (∀ frames : List (PrimeData × Nat × Nat),
        (runPrimeStream frames).1.map DrmBuf.fd_prime
            = (runPrimeStream frames).2 ∧
        (runPrimeStream frames).2.Nodup ∧
        ((runPrimeStream frames).1.map DrmBuf.fd_prime).Nodup) := by
  constructor
  · intro bufs p w h hin
    obtain ⟨b, hb, hfd⟩ := hin
    rcases hfind : bufs.find? (fun b => b.fd_prime == p.fd) with _ | b'
    · exfalso
      have hne := List.find?_eq_none.mp hfind b hb
      simp [hfd] at hne
    · simp [acquirePrimeBuf, hfind]
  · intro frames
    obtain ⟨h1, h2⟩ := primeStream_fold_accounting frames [] []
      (by simp) List.nodup_nil
    have h1' : (runPrimeStream frames).1.map DrmBuf.fd_prime
        = (runPrimeStream frames).2 := h1
    have h2' : (runPrimeStream frames).2.Nodup := h2
    exact ⟨h1', h2', h1' ▸ h2'⟩

/-- C7 witness: presenting fds 5, 7, 5 imports each distinct fd once and
re-presenting fd 5 against the resulting pool performs no import. -/
theorem prime_pool_one_descriptor_per_fd_witness :
    acquirePrimeBuf [⟨5, 720, 576, 64, 0, 64, 100⟩] ⟨5, 64, 0, 64, 100⟩ 720 576
      = ([⟨5, 720, 576, 64, 0, 64, 100⟩], false) ∧
    (runPrimeStream [(⟨5, 64, 0, 64, 100⟩, 720, 576),
        (⟨7, 64, 0, 64, 100⟩, 720, 576),
        (⟨5, 64, 0, 64, 100⟩, 720, 576)]).2.Nodup :=
  ⟨prime_pool_one_descriptor_per_fd.1 _ ⟨5, 64, 0, 64, 100⟩ 720 576
      ⟨⟨5, 720, 576, 64, 0, 64, 100⟩, by decide, rfl⟩,
    (prime_pool_one_descriptor_per_fd.2 _).2.1⟩

/-- C8: `Video_get_format` does not terminate on every `AV_PIX_FMT_NONE`
terminated format list: because the `fmt++` of the source sits after the
`return` inside the HEVC branch, no loop iteration advances the format
pointer, so for the list `[AV_PIX_FMT_YUV420P]` under codec
`AV_CODEC_ID_H264` the first element matches no branch and the loop
re-tests it forever — no amount of fuel produces a result, in
contradiction with the claimed fall-through to the library default. -/
theorem Video_get_format_loops_forever (fuel : Nat) :
    Video_get_format AV_CODEC_ID_H264 [AV_PIX_FMT_YUV420P] fuel = none := by
  show Video_get_format_loop AV_CODEC_ID_H264 [AV_PIX_FMT_YUV420P] 0 fuel
      = none
  induction fuel with
  | zero => rfl
  | succ n ih =>
      simp only [Video_get_format_loop, List.getElem?_cons_zero]
      rw [if_neg (by decide), if_neg (by decide), if_neg (by decide)]
      exact ih

/-- C5 counterexample: a device that opens fine and has a connected
1080p50 display, but whose only plane supports neither `NV12` nor
`ARGB8888` (its single format is the fourcc of `XRGB8888`).  Both
required planes are missing, yet `Drm_find_dev` runs to `return 0`: the
result is `ok` with `video_plane = 0` and `osd_plane = 0`, not the fatal
error the claim requires, and nothing stops the stream from starting. -/
theorem Drm_find_dev_missing_planes_returns_ok_counterexample :
    Drm_find_dev 2
      { openOk := true
        resources := some [some ⟨30, true, [⟨1920, 1080, 50, false⟩],
          some ⟨40, 1⟩⟩]
        planeRes := some [⟨50, 1, DRM_PLANE_TYPE_PRIMARY, 0,
          [875713112]⟩] } false
      = some (Except.ok ⟨30, 40, ⟨1920, 1080, 50, false⟩, some ⟨40, 1⟩,
          false, 0, 0, 0, 0⟩) := by
  rfl

/-- C5 amended: `Drm_find_dev` reports fatal errors only from the
enumeration phase (open, resources, connector, encoder fetches); once the
connector scan completes with an encoder in hand, the function returns
success for every plane list whatsoever — failure to find an
NV12-capable video plane or an ARGB8888-capable OSD plane is not
detected, the corresponding plane id is simply left `0`.  (`VideoInit`,
lines 1443-1445, only logs a nonzero return and proceeds, so even real
enumeration errors do not stop the stream.) -/
theorem Drm_find_dev_plane_search_never_fails
    (fuel : Nat) (conns : List (Option DrmConnector))
    (planes : List DrmPlane) (hdr : Bool) (st : FindDevState)
    (e : DrmEncoder)
    (hconn : connectorLoop hdr conns fuel 0 FindDevState.init
      = some (.ok st))
    (henc : st.encoder = some e) :
    Drm_find_dev fuel
      { openOk := true, resources := some conns, planeRes := some planes }
      hdr = some (.ok (planeScan e st planes)) := by
  simp [Drm_find_dev, hconn, henc]

/-- C5 amended witness: a connected 720p50 display under the `hdr`
policy whose device exposes no planes at all — `Drm_find_dev` still
returns success. -/
theorem Drm_find_dev_plane_search_never_fails_witness :
    Drm_find_dev 2
      { openOk := true
        resources := some [some ⟨31, true, [⟨1280, 720, 50, false⟩],
          some ⟨41, 1⟩⟩]
        planeRes := some [] } true
      = some (Except.ok (planeScan ⟨41, 1⟩
          ⟨31, 41, ⟨1280, 720, 50, false⟩, some ⟨41, 1⟩,
            false, 0, 0, 0, 0⟩ [])) :=
  Drm_find_dev_plane_search_never_fails 2
    [some ⟨31, true, [⟨1280, 720, 50, false⟩], some ⟨41, 1⟩⟩]
    [] true
    ⟨31, 41, ⟨1280, 720, 50, false⟩, some ⟨41, 1⟩, false, 0, 0, 0, 0⟩
    ⟨41, 1⟩ rfl rfl

end VideoDrm
